import Mathlib

/-
Verification of devai-cli document command module
(src/devai-cli/src/devai/commands/document.py).

The module is a thin orchestration layer over two external services: a
secret store (Google Secret Manager) and a generative chat model.  We embed
it shallowly: the external services are oracles supplied as functions, and
every observable action of the code (log calls, remote lookups, chat
messages, lines printed with click.echo) is recorded in an event trace.
Python exceptions are modelled with `Except PyExn`.
-/

namespace Devai

/-- Outcome of the remote `access_secret_version` call followed by the
UTF-8 decode of the payload, as seen by the inner `try` of `get_prompt`:
success with a decoded payload, a `PermissionDenied` exception, a
`NotFound` exception, a decode failure, or any other exception. -/
inductive StoreOutcome where
  | ok (payload : String)
  | permissionDenied
  | notFound
  | decodeFailure
  | otherError (msg : String)
deriving DecidableEq

/-- Python exceptions that can cross function boundaries in this module. -/
inductive PyExn where
  | environmentError (msg : String)
  | typeError (msg : String)
  | serviceError (msg : String)
deriving DecidableEq

/-- Severity levels of the `logging` calls in the module. -/
inductive LogLevel where
  | info
  | warning
  | error
deriving DecidableEq

/-- Observable actions performed by the code, in order: a log record, the
call of `get_prompt` (the template lookup attempt), the remote
`access_secret_version` request (by full resource name), the call of the
external `format_files_as_string` collaborator (with its argument), the
creation of a chat session on a model, an outbound `send_message`, and a
line printed to standard output by `click.echo`. -/
inductive Event where
  | log (lvl : LogLevel) (msg : String)
  | getPromptCall (secret_id : String)
  | secretLookup (name : String)
  | formatCall (context : String)
  | startChat (modelName : String)
  | sendMessage (text : String)
  | echo (line : String)
deriving DecidableEq

/-- Module-level constant `USER_AGENT` from document.py. -/
def USER_AGENT : String := "cloud-solutions/genai-for-developers-v1.0"

/-- Module-level constant `model_name` from document.py. -/
def model_name : String := "gemini-1.5-pro"

/-- `ensure_env_variable(var_name)`: returns the value of the environment
variable, raising `EnvironmentError` when it is unset.  The process
environment is passed in explicitly as `value`. -/
def ensure_env_variable (var_name : String) (value : Option String) :
    Except PyExn String :=
  match value with
  | none => Except.error (PyExn.environmentError
      s!"Required environment variable \x27{var_name}\x27 is not set.")
  | some v => Except.ok v

/-- The resource path `f"projects/{project_id}/secrets/{secret_id}/versions/latest"`
built by `get_prompt`. -/
def secret_version_name (project_id secret_id : String) : String :=
  s!"projects/{project_id}/secrets/{secret_id}/versions/latest"

/-- `get_prompt(secret_id)`: looks up a secret value.  `env` is the value of
the `PROJECT_ID` environment variable, `store` the secret-store oracle keyed
by full resource name.  Mirrors the source: the outer `try` catches
`EnvironmentError` from `ensure_env_variable`, logs it, and falls off the
end of the function (implicitly returning `None`); the inner `try` catches
`PermissionDenied`, `NotFound` and any other `Exception` from the remote
access / payload decode and returns `None` for each. -/
def get_prompt (env : Option String) (store : String → StoreOutcome)
    (secret_id : String) : Except PyExn (Option String) × List Event :=
  match ensure_env_variable "PROJECT_ID" env with
  | Except.error (PyExn.environmentError m) =>
      (Except.ok none, [Event.getPromptCall secret_id, Event.log LogLevel.error m])
  | Except.error e =>
      (Except.error e, [Event.getPromptCall secret_id])
  | Except.ok project_id =>
      let name := secret_version_name project_id secret_id
      let pre : List Event :=
        [Event.getPromptCall secret_id,
         Event.log LogLevel.info s!"PROJECT_ID: {project_id}",
         Event.secretLookup name]
      match store name with
      | StoreOutcome.ok payload =>
          (Except.ok (some payload), pre ++
            [Event.log LogLevel.info
              s!"Successfully retrieved secret ID: {secret_id} in project {project_id}"])
      | StoreOutcome.permissionDenied =>
          (Except.ok none, pre ++
            [Event.log LogLevel.warning
              s!"Insufficient permissions to access secret {secret_id} in project {project_id}"])
      | StoreOutcome.notFound =>
          (Except.ok none, pre ++
            [Event.log LogLevel.info
              s!"Secret ID not found: {secret_id} in project {project_id}"])
      | StoreOutcome.decodeFailure =>
          (Except.ok none, pre ++
            [Event.log LogLevel.error
              s!"An unexpected error occurred while retrieving secret \x27{secret_id}\x27: decode failure"])
      | StoreOutcome.otherError m =>
          (Except.ok none, pre ++
            [Event.log LogLevel.error
              s!"An unexpected error occurred while retrieving secret \x27{secret_id}\x27: {m}"])

/-- The value component `get_prompt` produces: the payload when the
environment variable is set and the store succeeds, `none` otherwise. -/
def get_prompt_opt (env : Option String) (store : String → StoreOutcome)
    (secret_id : String) : Option String :=
  match env with
  | none => none
  | some p =>
      match store (secret_version_name p secret_id) with
      | StoreOutcome.ok payload => some payload
      | _ => none

/-- A store outcome other than a successfully decoded payload:
permission denied, not found, decode failure, or any other error. -/
def StoreOutcome.isFailure : StoreOutcome → Bool
  | StoreOutcome.ok _ => false
  | _ => true

/-- The external world of one command invocation: the `PROJECT_ID`
environment variable, the secret-store oracle (keyed by full resource
name), the external `format_files_as_string` collaborator, and the chat
oracle giving the model reply (or raised service error) for a message,
given the history of messages already sent on the session. -/
structure World where
  env : Option String
  store : String → StoreOutcome
  format_files_as_string : String → String
  chatReply : List String → String → Except PyExn String

/-- The fixed wrapper template `source` of the generation commands, with
the `str.format` placeholder. -/
def source_template : String :=
  "\n            ### Context (code) ###\n            \x7b\x7d\n\n            "

/-- `source.format(blob)` for the fixed wrapper template: the single
placeholder is replaced by the formatted context blob. -/
def format_source (blob : String) : String :=
  "\n            ### Context (code) ###\n            " ++ blob ++ "\n\n            "

/-- The built-in default instruction of the `readme` command (the triple
quoted string assigned to `qry` when `get_prompt` returned `None`),
verbatim from the source including its trailing whitespace. -/
def readme_default_qry : String := String.intercalate "\n"
  ["",
   "            ### Instruction ###",
   "            Generate a comprehensive README.md file for the provided context. The README should follow industry best practices and be suitable for professional developers. Resources like dora.dev, stc.org, and writethedocs.org should be used as guidelines.",
   "",
   "            It should be clear, concise, and easy to read written in a professional mannor conveying the project\x27s purpose and value effectively.",
   "           ",
   "            ### Output Format ### ",
   "            A well-structured README.md file in Markdown format. The README, using markdown formatting,  should include the following sections (at a minimum):",
   "",
   "            Description",
   "            Table of Contents",
   "            Features",
   "            Installation",
   "            Usage",
   "            Contributing",
   "            License",
   "            Contact",
   "",
   "            ### Example Dialogue ###",
   "            Instruction:",
   "            Generate a comprehensive README.md file for the provided project. The README should follow industry best practices and be suitable for professional developers.",
   "",
   "            Context (project):",
   "            Project Name: Cymbal Coffee",
   "            Description: A Python library for data analysis and visualization, designed to simplify common data wrangling tasks and generate insightful plots.",
   "            Technologies Used: Python, Pandas, NumPy, Matplotlib, Seaborn",
   "            Features:",
   "            * Easy data loading from various sources (CSV, Excel, SQL, etc.)",
   "            * Powerful data cleaning and transformation functions",
   "            * Interactive data exploration with summary statistics and filtering",
   "            * Customizable visualization templates for common plot types",
   "            * Integration with Jupyter Notebooks for seamless analysis",
   "            Installation: pip install cymbal",
   "            Usage: See examples in the \x27examples\x27 directory or visit our documentation: [link to documentation]",
   "            Contribution Guidelines: We welcome contributions! Please follow our style guide and submit pull requests for review.",
   "            License: Apache 2.0 License",
   "            Contact Information: Email us at support@cymbal.coffee or open an issue on our GitHub repository.",
   "            "]

/-- The built-in default instruction of the `releasenotes` command,
verbatim from the source including its whitespace. -/
def releasenotes_default_qry : String := String.intercalate "\n"
  ["",
   "            ### Instruction ###",
   "           Create detailed release notes",
   "            "]

/-- The secret id the `readme` command passes to `get_prompt`. -/
def readme_secret_id : String := "document_readme"

/-- The secret id the `releasenotes` command passes to `get_prompt`
(line 180 of the source: also `document_readme`). -/
def releasenotes_secret_id : String := "document_readme"

/-- Body of the `readme` command function: echo the progress line, look up
the prompt, fall back to the built-in default when it is `None`, format the
context blob into the wrapper, start one chat session, send the instruction
then the formatted context, and echo the reply text.  A reply that raises
propagates (nothing is caught here). -/
def readme_body (w : World) (context : String) : Except PyExn Unit × List Event :=
  match get_prompt w.env w.store readme_secret_id with
  | (Except.error e, ev1) =>
      (Except.error e, Event.echo "Generating and printing the README...." :: ev1)
  | (Except.ok qopt, ev1) =>
      let qry : String :=
        match qopt with
        | none => readme_default_qry
        | some q => q
      let source := format_source (w.format_files_as_string context)
      let pre : List Event :=
        Event.echo "Generating and printing the README...." :: ev1 ++
          [Event.formatCall context, Event.startChat model_name, Event.sendMessage qry]
      match w.chatReply [] qry with
      | Except.error e => (Except.error e, pre)
      | Except.ok _ =>
          match w.chatReply [qry] source with
          | Except.error e => (Except.error e, pre ++ [Event.sendMessage source])
          | Except.ok rtext =>
              (Except.ok PUnit.unit, pre ++ [Event.sendMessage source, Event.echo rtext])

/-- Body of the `releasenotes` command function, mirroring `readme` with
its own progress line and default instruction (but the same secret id,
as in the source). -/
def releasenotes_body (w : World) (context : String) :
    Except PyExn Unit × List Event :=
  match get_prompt w.env w.store releasenotes_secret_id with
  | (Except.error e, ev1) =>
      (Except.error e, Event.echo "Generating and printing release notes." :: ev1)
  | (Except.ok qopt, ev1) =>
      let qry : String :=
        match qopt with
        | none => releasenotes_default_qry
        | some q => q
      let source := format_source (w.format_files_as_string context)
      let pre : List Event :=
        Event.echo "Generating and printing release notes." :: ev1 ++
          [Event.formatCall context, Event.startChat model_name, Event.sendMessage qry]
      match w.chatReply [] qry with
      | Except.error e => (Except.error e, pre)
      | Except.ok _ =>
          match w.chatReply [qry] source with
          | Except.error e => (Except.error e, pre ++ [Event.sendMessage source])
          | Except.ok rtext =>
              (Except.ok PUnit.unit, pre ++ [Event.sendMessage source, Event.echo rtext])

/-- Body of the `update-readme` command function: it only echoes its
placeholder line. -/
def update_readme_body : Except PyExn Unit × List Event :=
  (Except.ok PUnit.unit, [Event.echo "Update README"])

/-- Body of the `update-releasenotes` command function: it only echoes its
placeholder line. -/
def update_releasenotes_body : Except PyExn Unit × List Event :=
  (Except.ok PUnit.unit, [Event.echo "create release notes"])

/-- Click resolves an omitted option to its declared default. -/
def resolve_option (given : Option String) (dflt : String) : String :=
  match given with
  | some v => v
  | none => dflt

/-- Click invokes a command callback with every declared parameter as a
keyword argument (`callback(**ctx.params)`); Python raises `TypeError`
when the callback does not accept one of them, and the body never runs. -/
def callWithKwargs (accepted supplied : List String)
    (body : Except PyExn Unit × List Event) : Except PyExn Unit × List Event :=
  match supplied.find? (fun p => ! accepted.contains p) with
  | some p =>
      (Except.error (PyExn.typeError
        s!"got an unexpected keyword argument \x27{p}\x27"), [])
  | none => body

/-- CLI invocation of `readme`: one declared option `context` defaulting to
the empty string; the callback accepts `context`. -/
def readme_cli (w : World) (contextOpt : Option String) :
    Except PyExn Unit × List Event :=
  callWithKwargs ["context"] ["context"]
    (readme_body w (resolve_option contextOpt ""))

/-- CLI invocation of `releasenotes`: one declared option `context`
defaulting to the empty string; the callback accepts `context`. -/
def releasenotes_cli (w : World) (contextOpt : Option String) :
    Except PyExn Unit × List Event :=
  callWithKwargs ["context"] ["context"]
    (releasenotes_body w (resolve_option contextOpt ""))

/-- CLI invocation of `update-readme`: two declared options `file` and
`context`, but the callback `update_readme(context)` accepts only
`context`. -/
def update_readme_cli (_fileOpt : Option String) (_contextOpt : Option String) :
    Except PyExn Unit × List Event :=
  callWithKwargs ["context"] ["file", "context"] update_readme_body

/-- CLI invocation of `update-releasenotes`: two declared options `version`
and `context`, but the callback `update_releasenotes(context)` accepts only
`context`. -/
def update_releasenotes_cli (_versionOpt : Option String)
    (_contextOpt : Option String) : Except PyExn Unit × List Event :=
  callWithKwargs ["context"] ["version", "context"] update_releasenotes_body

/-- The texts of the outbound chat messages of a trace, in order. -/
def sendTexts (tr : List Event) : List String :=
  tr.filterMap fun e =>
    match e with
    | Event.sendMessage t => some t
    | _ => none

/-- The lines printed to standard output in a trace, in order. -/
def echoLines (tr : List Event) : List String :=
  tr.filterMap fun e =>
    match e with
    | Event.echo l => some l
    | _ => none

/-- The arguments of the calls of the external context formatter. -/
def formatArgs (tr : List Event) : List String :=
  tr.filterMap fun e =>
    match e with
    | Event.formatCall c => some c
    | _ => none

/-- The secret ids of the template lookup attempts (`get_prompt` calls). -/
def promptLookups (tr : List Event) : List String :=
  tr.filterMap fun e =>
    match e with
    | Event.getPromptCall s => some s
    | _ => none

/-- The resource names of the remote secret-store requests. -/
def secretLookups (tr : List Event) : List String :=
  tr.filterMap fun e =>
    match e with
    | Event.secretLookup n => some n
    | _ => none

/-- The model names of the chat sessions opened. -/
def chatStarts (tr : List Event) : List String :=
  tr.filterMap fun e =>
    match e with
    | Event.startChat m => some m
    | _ => none

/-- The instruction `qry` a generation command ends up sending: the store
payload when the lookup succeeded, its built-in default otherwise. -/
def chosen_qry (w : World) (secret_id dflt : String) : String :=
  match get_prompt_opt w.env w.store secret_id with
  | some q => q
  | none => dflt

/-- The trace prefix of the `readme` command up to and including the first
chat message: progress echo, prompt-lookup events, context-formatter call,
chat-session creation, and the instruction message. -/
def readme_pre (w : World) (ctx : String) : List Event :=
  Event.echo "Generating and printing the README...." ::
    (get_prompt w.env w.store readme_secret_id).2 ++
    [Event.formatCall ctx, Event.startChat model_name,
     Event.sendMessage (chosen_qry w readme_secret_id readme_default_qry)]

/-- The trace prefix of the `releasenotes` command up to and including the
first chat message. -/
def releasenotes_pre (w : World) (ctx : String) : List Event :=
  Event.echo "Generating and printing release notes." ::
    (get_prompt w.env w.store releasenotes_secret_id).2 ++
    [Event.formatCall ctx, Event.startChat model_name,
     Event.sendMessage (chosen_qry w releasenotes_secret_id releasenotes_default_qry)]

/-- A store in which every secret is missing. -/
def storeAllNotFound : String → StoreOutcome := fun _ => StoreOutcome.notFound

/-- A store holding a haiku instruction under the readme key of project
`p`, and nothing else. -/
def storeHaiku : String → StoreOutcome := fun n =>
  if n = "projects/p/secrets/document_readme/versions/latest" then
    StoreOutcome.ok "Write a haiku about the code."
  else StoreOutcome.notFound

/-- A store holding a value only under an unrelated key of project `p`. -/
def storeOther : String → StoreOutcome := fun n =>
  if n = "projects/p/secrets/other/versions/latest" then StoreOutcome.ok "x"
  else StoreOutcome.notFound

/-- A chat model that replies to each message with the message itself. -/
def chatEchoOracle : List String → String → Except PyExn String :=
  fun _ m => Except.ok m

/-- A chat model whose every call raises a service error. -/
def chatFailOracle : List String → String → Except PyExn String :=
  fun _ _ => Except.error (PyExn.serviceError "boom")

/-- Concrete world: `PROJECT_ID=p`, empty store, identity formatter,
echoing model. -/
def wBase : World := ⟨some "p", storeAllNotFound, fun s => s, chatEchoOracle⟩

/-- Same as `wBase` except that the store holds a value under an unrelated
key. -/
def wOther : World := ⟨some "p", storeOther, fun s => s, chatEchoOracle⟩

/-- Concrete world whose store holds the haiku instruction. -/
def wHaiku : World := ⟨some "p", storeHaiku, fun s => s, chatEchoOracle⟩

/-- Concrete world with `PROJECT_ID` unset. -/
def wNoEnv : World := ⟨none, storeAllNotFound, fun s => s, chatEchoOracle⟩

/-- Concrete world whose generative model always raises. -/
def wFail : World := ⟨some "p", storeAllNotFound, fun s => s, chatFailOracle⟩

/-
Theorems.  First structural lemmas about the embedding, then the claim
theorems.
-/

theorem get_prompt_eq (env : Option String) (store : String → StoreOutcome)
    (secret_id : String) :
    get_prompt env store secret_id =
      (Except.ok (get_prompt_opt env store secret_id),
       (get_prompt env store secret_id).2) := by
  cases env with
  | none => rfl
  | some p =>
      rcases h : store (secret_version_name p secret_id) with q | _ | _ | _ | m <;>
        simp only [get_prompt, get_prompt_opt, ensure_env_variable, h]

theorem get_prompt_congr (env : Option String) (s₁ s₂ : String → StoreOutcome)
    (secret_id : String)
    (h : ∀ p, env = some p →
      s₁ (secret_version_name p secret_id) = s₂ (secret_version_name p secret_id)) :
    get_prompt env s₁ secret_id = get_prompt env s₂ secret_id := by
  cases env with
  | none => rfl
  | some p =>
      have hs := h p rfl
      simp only [get_prompt, ensure_env_variable, hs]

theorem get_prompt_trace_proj (env : Option String) (store : String → StoreOutcome)
    (secret_id : String) :
    sendTexts (get_prompt env store secret_id).2 = [] ∧
    echoLines (get_prompt env store secret_id).2 = [] ∧
    chatStarts (get_prompt env store secret_id).2 = [] ∧
    formatArgs (get_prompt env store secret_id).2 = [] ∧
    promptLookups (get_prompt env store secret_id).2 = [secret_id] := by
  cases env with
  | none =>
      simp [get_prompt, ensure_env_variable, sendTexts, echoLines, chatStarts,
        formatArgs, promptLookups]
  | some p =>
      rcases h : store (secret_version_name p secret_id) with q | _ | _ | _ | m <;>
        simp [get_prompt, ensure_env_variable, h, sendTexts, echoLines, chatStarts,
          formatArgs, promptLookups]

theorem readme_cli_eq (w : World) (contextOpt : Option String) :
    readme_cli w contextOpt = readme_body w (resolve_option contextOpt "") := rfl

theorem releasenotes_cli_eq (w : World) (contextOpt : Option String) :
    releasenotes_cli w contextOpt =
      releasenotes_body w (resolve_option contextOpt "") := rfl

theorem readme_body_shape (w : World) (ctx : String) :
    readme_body w ctx =
      (match w.chatReply [] (chosen_qry w readme_secret_id readme_default_qry) with
       | Except.error e => (Except.error e, readme_pre w ctx)
       | Except.ok _ =>
           match w.chatReply [chosen_qry w readme_secret_id readme_default_qry]
               (format_source (w.format_files_as_string ctx)) with
           | Except.error e =>
               (Except.error e, readme_pre w ctx ++
                 [Event.sendMessage (format_source (w.format_files_as_string ctx))])
           | Except.ok rtext =>
               (Except.ok PUnit.unit, readme_pre w ctx ++
                 [Event.sendMessage (format_source (w.format_files_as_string ctx)),
                  Event.echo rtext])) := by
  unfold readme_body readme_pre
  rw [get_prompt_eq w.env w.store readme_secret_id]
  cases hq : get_prompt_opt w.env w.store readme_secret_id <;>
    simp only [chosen_qry, hq]

theorem releasenotes_body_shape (w : World) (ctx : String) :
    releasenotes_body w ctx =
      (match w.chatReply [] (chosen_qry w releasenotes_secret_id releasenotes_default_qry) with
       | Except.error e => (Except.error e, releasenotes_pre w ctx)
       | Except.ok _ =>
           match w.chatReply [chosen_qry w releasenotes_secret_id releasenotes_default_qry]
               (format_source (w.format_files_as_string ctx)) with
           | Except.error e =>
               (Except.error e, releasenotes_pre w ctx ++
                 [Event.sendMessage (format_source (w.format_files_as_string ctx))])
           | Except.ok rtext =>
               (Except.ok PUnit.unit, releasenotes_pre w ctx ++
                 [Event.sendMessage (format_source (w.format_files_as_string ctx)),
                  Event.echo rtext])) := by
  unfold releasenotes_body releasenotes_pre
  rw [get_prompt_eq w.env w.store releasenotes_secret_id]
  cases hq : get_prompt_opt w.env w.store releasenotes_secret_id <;>
    simp only [chosen_qry, hq]

theorem readme_pre_proj (w : World) (ctx : String) :
    sendTexts (readme_pre w ctx) =
      [chosen_qry w readme_secret_id readme_default_qry] ∧
    echoLines (readme_pre w ctx) = ["Generating and printing the README...."] ∧
    chatStarts (readme_pre w ctx) = [model_name] ∧
    formatArgs (readme_pre w ctx) = [ctx] ∧
    promptLookups (readme_pre w ctx) = [readme_secret_id] := by
  obtain ⟨hs, he, hc, hf, hp⟩ := get_prompt_trace_proj w.env w.store readme_secret_id
  simp only [readme_pre, sendTexts, echoLines, chatStarts, formatArgs,
    promptLookups] at hs he hc hf hp ⊢
  simp [hs, he, hc, hf, hp]

theorem releasenotes_pre_proj (w : World) (ctx : String) :
    sendTexts (releasenotes_pre w ctx) =
      [chosen_qry w releasenotes_secret_id releasenotes_default_qry] ∧
    echoLines (releasenotes_pre w ctx) =
      ["Generating and printing release notes."] ∧
    chatStarts (releasenotes_pre w ctx) = [model_name] ∧
    formatArgs (releasenotes_pre w ctx) = [ctx] ∧
    promptLookups (releasenotes_pre w ctx) = [releasenotes_secret_id] := by
  obtain ⟨hs, he, hc, hf, hp⟩ :=
    get_prompt_trace_proj w.env w.store releasenotes_secret_id
  simp only [releasenotes_pre, sendTexts, echoLines, chatStarts, formatArgs,
    promptLookups] at hs he hc hf hp ⊢
  simp [hs, he, hc, hf, hp]

/-- C1: the claim fails on the code.  Click passes every declared option of
`update-readme` and `update-releasenotes` as a keyword argument, including
`file` resp. `version`, but the callbacks accept only `context`; hence
every invocation, with any combination of arguments, raises `TypeError`
with an empty trace — the placeholder line is never printed (and indeed no
secret-store or model call occurs, but not for the reason the claim
states). -/
theorem C1_update_stubs_raise_type_error :
    (∀ f c, update_readme_cli f c =
      (Except.error (PyExn.typeError
        "got an unexpected keyword argument \x27file\x27"), [])) ∧
    (∀ v c, update_releasenotes_cli v c =
      (Except.error (PyExn.typeError
        "got an unexpected keyword argument \x27version\x27"), [])) :=
  ⟨fun _ _ => rfl, fun _ _ => rfl⟩

/-- C2: the `releasenotes` command performs its prompt-store lookup with
the README kind's key: the secret id it passes to `get_prompt` is the same
`document_readme` the `readme` command passes, and with `PROJECT_ID=p` its
single remote request is for
`projects/p/secrets/document_readme/versions/latest`. -/
theorem C2_releasenotes_uses_readme_key :
    releasenotes_secret_id = readme_secret_id ∧
    secretLookups (releasenotes_cli wBase (some "c")).2 =
      ["projects/p/secrets/document_readme/versions/latest"] ∧
    promptLookups (releasenotes_cli wBase (some "c")).2 = ["document_readme"] :=
  ⟨rfl, rfl, rfl⟩

/-- C3: with `PROJECT_ID` unset, `get_prompt` returns `None` rather than
raising, and its trace is exactly the lookup attempt followed by the
configuration-error log record. -/
theorem C3_get_prompt_missing_env (store : String → StoreOutcome)
    (secret_id : String) :
    (get_prompt none store secret_id).1 = Except.ok none ∧
    (get_prompt none store secret_id).2 =
      [Event.getPromptCall secret_id,
       Event.log LogLevel.error
         "Required environment variable \x27PROJECT_ID\x27 is not set."] :=
  ⟨rfl, rfl⟩

/-- C4: on every secret-store failure — permission denied, not found,
decode failure or any other error — `get_prompt` returns `None`;
permission-denied and not-found yield the same value to the caller; and
for every environment and store, `get_prompt` returns normally (never
raises). -/
theorem C4_store_failure_degrades (p secret_id : String)
    (store : String → StoreOutcome)
    (h : (store (secret_version_name p secret_id)).isFailure = true) :
    (get_prompt (some p) store secret_id).1 = Except.ok none ∧
    (∀ s₁ s₂ : String → StoreOutcome,
      s₁ (secret_version_name p secret_id) = StoreOutcome.permissionDenied →
      s₂ (secret_version_name p secret_id) = StoreOutcome.notFound →
      (get_prompt (some p) s₁ secret_id).1 = (get_prompt (some p) s₂ secret_id).1) ∧
    (∀ (env : Option String) (s : String → StoreOutcome),
      ∃ o, (get_prompt env s secret_id).1 = Except.ok o) := by
  refine ⟨?_, ?_, ?_⟩
  · rw [get_prompt_eq]
    rcases hs : store (secret_version_name p secret_id) with q | _ | _ | _ | m
    · rw [hs] at h
      simp [StoreOutcome.isFailure] at h
    all_goals simp [get_prompt_opt, hs]
  · intro s₁ s₂ h₁ h₂
    rw [get_prompt_eq (some p) s₁ secret_id, get_prompt_eq (some p) s₂ secret_id]
    simp [get_prompt_opt, h₁, h₂]
  · intro env s
    exact ⟨get_prompt_opt env s secret_id, by rw [get_prompt_eq]⟩

theorem C4_store_failure_degrades_witness :
    (get_prompt (some "p") storeAllNotFound "document_readme").1 =
      Except.ok none :=
  (C4_store_failure_degrades "p" "document_readme" storeAllNotFound rfl).1

/-- C5: every invocation of `readme` or `releasenotes` that produces its
textual result performed exactly one template lookup attempt, opened
exactly one chat session, and sent exactly two messages on it — the
instruction first, then the formatted context — and its standard output is
the progress line followed by the single reply. -/
theorem C5_one_lookup_one_session_two_messages (w : World)
    (ctxOpt : Option String) :
    ((readme_cli w ctxOpt).1 = Except.ok PUnit.unit →
      promptLookups (readme_cli w ctxOpt).2 = [readme_secret_id] ∧
      chatStarts (readme_cli w ctxOpt).2 = [model_name] ∧
      ∃ reply,
        sendTexts (readme_cli w ctxOpt).2 =
          [chosen_qry w readme_secret_id readme_default_qry,
           format_source (w.format_files_as_string (resolve_option ctxOpt ""))] ∧
        echoLines (readme_cli w ctxOpt).2 =
          ["Generating and printing the README....", reply]) ∧
    ((releasenotes_cli w ctxOpt).1 = Except.ok PUnit.unit →
      promptLookups (releasenotes_cli w ctxOpt).2 = [releasenotes_secret_id] ∧
      chatStarts (releasenotes_cli w ctxOpt).2 = [model_name] ∧
      ∃ reply,
        sendTexts (releasenotes_cli w ctxOpt).2 =
          [chosen_qry w releasenotes_secret_id releasenotes_default_qry,
           format_source (w.format_files_as_string (resolve_option ctxOpt ""))] ∧
        echoLines (releasenotes_cli w ctxOpt).2 =
          ["Generating and printing release notes.", reply]) := by
  constructor
  · intro hok
    rw [readme_cli_eq] at hok ⊢
    rw [readme_body_shape] at hok ⊢
    rcases h1 : w.chatReply [] (chosen_qry w readme_secret_id readme_default_qry)
      with e | r1
    · rw [h1] at hok; simp at hok
    · rcases h2 : w.chatReply [chosen_qry w readme_secret_id readme_default_qry]
          (format_source (w.format_files_as_string (resolve_option ctxOpt "")))
        with e | rtext
      · rw [h1, h2] at hok; simp at hok
      · obtain ⟨hs, he, hc, hf, hp⟩ := readme_pre_proj w (resolve_option ctxOpt "")
        refine ⟨?_, ?_, rtext, ?_, ?_⟩ <;>
          simp only [promptLookups, chatStarts, sendTexts, echoLines]
            at hs he hc hp ⊢ <;>
          simp [hs, he, hc, hp]
  · intro hok
    rw [releasenotes_cli_eq] at hok ⊢
    rw [releasenotes_body_shape] at hok ⊢
    rcases h1 : w.chatReply []
        (chosen_qry w releasenotes_secret_id releasenotes_default_qry)
      with e | r1
    · rw [h1] at hok; simp at hok
    · rcases h2 : w.chatReply
          [chosen_qry w releasenotes_secret_id releasenotes_default_qry]
          (format_source (w.format_files_as_string (resolve_option ctxOpt "")))
        with e | rtext
      · rw [h1, h2] at hok; simp at hok
      · obtain ⟨hs, he, hc, hf, hp⟩ :=
          releasenotes_pre_proj w (resolve_option ctxOpt "")
        refine ⟨?_, ?_, rtext, ?_, ?_⟩ <;>
          simp only [promptLookups, chatStarts, sendTexts, echoLines]
            at hs he hc hp ⊢ <;>
          simp [hs, he, hc, hp]

theorem C5_one_lookup_one_session_two_messages_witness :
    promptLookups (readme_cli wBase (some "c")).2 = [readme_secret_id] :=
  ((C5_one_lookup_one_session_two_messages wBase (some "c")).1 rfl).1

/-- C6: when the store returns a template text for the lookup key, that
exact text is the chosen instruction and the first chat message of both
generation commands, verbatim — the built-in default is not used. -/
theorem C6_store_template_verbatim (w : World) (ctxOpt : Option String)
    (p q : String) (henv : w.env = some p)
    (hq : w.store (secret_version_name p "document_readme") = StoreOutcome.ok q)
    (hne : q ≠ "") :
    chosen_qry w readme_secret_id readme_default_qry = q ∧
    chosen_qry w releasenotes_secret_id releasenotes_default_qry = q ∧
    (sendTexts (readme_cli w ctxOpt).2).head? = some q ∧
    (sendTexts (releasenotes_cli w ctxOpt).2).head? = some q := by
  have hcq : chosen_qry w readme_secret_id readme_default_qry = q := by
    simp [chosen_qry, get_prompt_opt, henv, readme_secret_id, hq]
  have hcq2 : chosen_qry w releasenotes_secret_id releasenotes_default_qry = q := by
    simp [chosen_qry, get_prompt_opt, henv, releasenotes_secret_id, hq]
  refine ⟨hcq, hcq2, ?_, ?_⟩
  · rw [readme_cli_eq, readme_body_shape]
    obtain ⟨hs, -, -, -, -⟩ := readme_pre_proj w (resolve_option ctxOpt "")
    rcases h1 : w.chatReply [] (chosen_qry w readme_secret_id readme_default_qry)
      with e | r1
    · simp only [sendTexts] at hs ⊢
      simp [hs, hcq]
    · rcases h2 : w.chatReply [chosen_qry w readme_secret_id readme_default_qry]
          (format_source (w.format_files_as_string (resolve_option ctxOpt "")))
        with e | rt <;>
        (simp only [sendTexts] at hs ⊢; simp [hs, hcq])
  · rw [releasenotes_cli_eq, releasenotes_body_shape]
    obtain ⟨hs, -, -, -, -⟩ := releasenotes_pre_proj w (resolve_option ctxOpt "")
    rcases h1 : w.chatReply []
        (chosen_qry w releasenotes_secret_id releasenotes_default_qry)
      with e | r1
    · simp only [sendTexts] at hs ⊢
      simp [hs, hcq2]
    · rcases h2 : w.chatReply
          [chosen_qry w releasenotes_secret_id releasenotes_default_qry]
          (format_source (w.format_files_as_string (resolve_option ctxOpt "")))
        with e | rt <;>
        (simp only [sendTexts] at hs ⊢; simp [hs, hcq2])

theorem C6_store_template_verbatim_witness :
    (sendTexts (readme_cli wHaiku (some "c")).2).head? =
      some "Write a haiku about the code." :=
  (C6_store_template_verbatim wHaiku (some "c") "p"
    "Write a haiku about the code." rfl rfl (by decide)).2.2.1

/-- C7: when the prompt lookup yields no value, each generation command
uses its own built-in default instruction (the two defaults are distinct),
interpolates the formatted context into the fixed wrapper, sends the two
messages, and prints the model's reply text unchanged. -/
theorem C7_default_instruction_per_kind (w : World) (ctxOpt : Option String)
    (hnone : get_prompt_opt w.env w.store "document_readme" = none)
    (a r b r2 : String)
    (h1 : w.chatReply [] readme_default_qry = Except.ok a)
    (h2 : w.chatReply [readme_default_qry]
        (format_source (w.format_files_as_string (resolve_option ctxOpt ""))) =
      Except.ok r)
    (h3 : w.chatReply [] releasenotes_default_qry = Except.ok b)
    (h4 : w.chatReply [releasenotes_default_qry]
        (format_source (w.format_files_as_string (resolve_option ctxOpt ""))) =
      Except.ok r2) :
    sendTexts (readme_cli w ctxOpt).2 =
      [readme_default_qry,
       format_source (w.format_files_as_string (resolve_option ctxOpt ""))] ∧
    echoLines (readme_cli w ctxOpt).2 =
      ["Generating and printing the README....", r] ∧
    sendTexts (releasenotes_cli w ctxOpt).2 =
      [releasenotes_default_qry,
       format_source (w.format_files_as_string (resolve_option ctxOpt ""))] ∧
    echoLines (releasenotes_cli w ctxOpt).2 =
      ["Generating and printing release notes.", r2] ∧
    readme_default_qry ≠ releasenotes_default_qry := by
  have hcq : chosen_qry w readme_secret_id readme_default_qry =
      readme_default_qry := by
    simp [chosen_qry, readme_secret_id, hnone]
  have hcq2 : chosen_qry w releasenotes_secret_id releasenotes_default_qry =
      releasenotes_default_qry := by
    simp [chosen_qry, releasenotes_secret_id, hnone]
  refine ⟨?_, ?_, ?_, ?_, by decide⟩
  · rw [readme_cli_eq, readme_body_shape, hcq, h1, h2]
    obtain ⟨hs, -, -, -, -⟩ := readme_pre_proj w (resolve_option ctxOpt "")
    rw [hcq] at hs
    simp only [sendTexts] at hs ⊢
    simp [hs]
  · rw [readme_cli_eq, readme_body_shape, hcq, h1, h2]
    obtain ⟨-, he, -, -, -⟩ := readme_pre_proj w (resolve_option ctxOpt "")
    simp only [echoLines] at he ⊢
    simp [he]
  · rw [releasenotes_cli_eq, releasenotes_body_shape, hcq2, h3, h4]
    obtain ⟨hs, -, -, -, -⟩ := releasenotes_pre_proj w (resolve_option ctxOpt "")
    rw [hcq2] at hs
    simp only [sendTexts] at hs ⊢
    simp [hs]
  · rw [releasenotes_cli_eq, releasenotes_body_shape, hcq2, h3, h4]
    obtain ⟨-, he, -, -, -⟩ := releasenotes_pre_proj w (resolve_option ctxOpt "")
    simp only [echoLines] at he ⊢
    simp [he]

theorem C7_default_instruction_per_kind_witness :
    echoLines (readme_cli wNoEnv (some "def foo(): pass")).2 =
      ["Generating and printing the README....",
       format_source "def foo(): pass"] :=
  (C7_default_instruction_per_kind wNoEnv (some "def foo(): pass") rfl
    readme_default_qry (format_source "def foo(): pass")
    releasenotes_default_qry (format_source "def foo(): pass")
    rfl rfl rfl rfl).2.1

/-- C8 counterexample: with a generative model that raises a service
error, the `readme` command terminates with the propagated error, yet a
line has already been printed to standard output (the progress line) —
contradicting the claim that no output line is printed. -/
theorem C8_counterexample :
    (readme_cli wFail (some "def foo(): pass")).1 =
      Except.error (PyExn.serviceError "boom") ∧
    echoLines (readme_cli wFail (some "def foo(): pass")).2 =
      ["Generating and printing the README...."] :=
  ⟨rfl, rfl⟩

/-- C8 amended: when the generative-model call raises, the error
propagates uncaught as the command's result and the reply is never
echoed: the only line printed to standard output is the progress line
emitted before the model call. -/
theorem C8_amended_error_propagates (w : World) (ctxOpt : Option String) :
    (∀ e, w.chatReply [] (chosen_qry w readme_secret_id readme_default_qry) =
        Except.error e → (readme_cli w ctxOpt).1 = Except.error e) ∧
    (∀ e, (readme_cli w ctxOpt).1 = Except.error e →
      echoLines (readme_cli w ctxOpt).2 =
        ["Generating and printing the README...."]) ∧
    (∀ e, w.chatReply []
        (chosen_qry w releasenotes_secret_id releasenotes_default_qry) =
        Except.error e → (releasenotes_cli w ctxOpt).1 = Except.error e) ∧
    (∀ e, (releasenotes_cli w ctxOpt).1 = Except.error e →
      echoLines (releasenotes_cli w ctxOpt).2 =
        ["Generating and printing release notes."]) := by
  refine ⟨?_, ?_, ?_, ?_⟩
  · intro e he
    rw [readme_cli_eq, readme_body_shape, he]
  · intro e he
    rw [readme_cli_eq, readme_body_shape] at he ⊢
    obtain ⟨-, hpe, -, -, -⟩ := readme_pre_proj w (resolve_option ctxOpt "")
    rcases h1 : w.chatReply [] (chosen_qry w readme_secret_id readme_default_qry)
      with e1 | r1
    · simp only [echoLines] at hpe ⊢
      simp [hpe]
    · rcases h2 : w.chatReply [chosen_qry w readme_secret_id readme_default_qry]
          (format_source (w.format_files_as_string (resolve_option ctxOpt "")))
        with e2 | rt
      · simp only [echoLines] at hpe ⊢
        simp [hpe]
      · rw [h1, h2] at he
        simp at he
  · intro e he
    rw [releasenotes_cli_eq, releasenotes_body_shape, he]
  · intro e he
    rw [releasenotes_cli_eq, releasenotes_body_shape] at he ⊢
    obtain ⟨-, hpe, -, -, -⟩ := releasenotes_pre_proj w (resolve_option ctxOpt "")
    rcases h1 : w.chatReply []
        (chosen_qry w releasenotes_secret_id releasenotes_default_qry)
      with e1 | r1
    · simp only [echoLines] at hpe ⊢
      simp [hpe]
    · rcases h2 : w.chatReply
          [chosen_qry w releasenotes_secret_id releasenotes_default_qry]
          (format_source (w.format_files_as_string (resolve_option ctxOpt "")))
        with e2 | rt
      · simp only [echoLines] at hpe ⊢
        simp [hpe]
      · rw [h1, h2] at he
        simp at he

theorem C8_amended_error_propagates_witness :
    (readme_cli wFail (some "x")).1 =
      Except.error (PyExn.serviceError "boom") :=
  (C8_amended_error_propagates wFail (some "x")).1
    (PyExn.serviceError "boom") rfl

/-- C9: `readme` is deterministic given its external inputs: two worlds
agreeing on the `PROJECT_ID` environment variable, on the store at the
queried resource name, on the formatter at the given context, and on the
chat replies, yield identical results — in particular byte-for-byte
identical printed output. -/
theorem C9_readme_deterministic (w₁ w₂ : World) (ctxOpt : Option String)
    (henv : w₁.env = w₂.env)
    (hstore : ∀ p, w₁.env = some p →
      w₁.store (secret_version_name p readme_secret_id) =
        w₂.store (secret_version_name p readme_secret_id))
    (hfmt : w₁.format_files_as_string (resolve_option ctxOpt "") =
      w₂.format_files_as_string (resolve_option ctxOpt ""))
    (hchat : ∀ h m, w₁.chatReply h m = w₂.chatReply h m) :
    readme_cli w₁ ctxOpt = readme_cli w₂ ctxOpt ∧
    echoLines (readme_cli w₁ ctxOpt).2 = echoLines (readme_cli w₂ ctxOpt).2 := by
  have hgp : get_prompt w₁.env w₁.store readme_secret_id =
      get_prompt w₂.env w₂.store readme_secret_id := by
    rw [henv] at hstore ⊢
    exact get_prompt_congr w₂.env w₁.store w₂.store readme_secret_id hstore
  have hopt : get_prompt_opt w₁.env w₁.store readme_secret_id =
      get_prompt_opt w₂.env w₂.store readme_secret_id := by
    have h := congrArg Prod.fst hgp
    rw [get_prompt_eq w₁.env w₁.store readme_secret_id,
        get_prompt_eq w₂.env w₂.store readme_secret_id] at h
    simpa using h
  have hcq : chosen_qry w₁ readme_secret_id readme_default_qry =
      chosen_qry w₂ readme_secret_id readme_default_qry := by
    simp only [chosen_qry, hopt]
  have hpre : readme_pre w₁ (resolve_option ctxOpt "") =
      readme_pre w₂ (resolve_option ctxOpt "") := by
    simp only [readme_pre, hgp, hcq]
  have hmain : readme_cli w₁ ctxOpt = readme_cli w₂ ctxOpt := by
    rw [readme_cli_eq, readme_cli_eq, readme_body_shape, readme_body_shape,
        hcq, hfmt, hpre,
        hchat [] (chosen_qry w₂ readme_secret_id readme_default_qry),
        hchat [chosen_qry w₂ readme_secret_id readme_default_qry]
          (format_source (w₂.format_files_as_string (resolve_option ctxOpt "")))]
  exact ⟨hmain, by rw [hmain]⟩

theorem C9_readme_deterministic_witness :
    echoLines (readme_cli wBase (some "ctx")).2 =
      echoLines (readme_cli wOther (some "ctx")).2 :=
  (C9_readme_deterministic wBase wOther (some "ctx") rfl
    (fun p hp => by injection hp with h; subst h; decide)
    rfl (fun _ _ => rfl)).2

/-- C10: when the context option (`-c`, long form `--context`) is omitted,
each generation command passes exactly the empty string to the external
context formatter. -/
theorem C10_omitted_context_is_empty (w : World) :
    formatArgs (readme_cli w none).2 = [""] ∧
    formatArgs (releasenotes_cli w none).2 = [""] := by
  constructor
  · rw [show readme_cli w none = readme_body w "" from rfl, readme_body_shape]
    obtain ⟨-, -, -, hf, -⟩ := readme_pre_proj w ""
    rcases h1 : w.chatReply [] (chosen_qry w readme_secret_id readme_default_qry)
      with e | r1
    · simp only [formatArgs] at hf ⊢
      simp [hf]
    · rcases h2 : w.chatReply [chosen_qry w readme_secret_id readme_default_qry]
          (format_source (w.format_files_as_string ""))
        with e | rt <;>
        (simp only [formatArgs] at hf ⊢; simp [hf])
  · rw [show releasenotes_cli w none = releasenotes_body w "" from rfl,
      releasenotes_body_shape]
    obtain ⟨-, -, -, hf, -⟩ := releasenotes_pre_proj w ""
    rcases h1 : w.chatReply []
        (chosen_qry w releasenotes_secret_id releasenotes_default_qry)
      with e | r1
    · simp only [formatArgs] at hf ⊢
      simp [hf]
    · rcases h2 : w.chatReply
          [chosen_qry w releasenotes_secret_id releasenotes_default_qry]
          (format_source (w.format_files_as_string ""))
        with e | rt <;>
        (simp only [formatArgs] at hf ⊢; simp [hf])

end Devai
